import Mathlib

/-!
A verification of the janis-core pipeline builder and CWL lowering.

This file gives a shallow embedding, in Lean 4, of the parts of the
janis-core repository that its design document makes claims about:

* the data-type compatibility relation (`DataType.canReceiveFrom`),
* the `StringFormatter` expression (construction and merging,
  `src/janis_core/operators/stringformatter.py`),
* the workflow graph builder (`Workflow.input`, `StepNode`, `OutputNode`,
  `Workflow.switch`, `wrap_steps_in_workflow`,
  `src/janis_core/workflow/workflow.py`),
* the CWL lowering of scatter metadata and resource overrides
  (`src/janis_core/translations/cwl.py`).

Python dictionaries are modelled as insertion-ordered association lists,
Python exceptions as `Except`, and logged warnings as explicit lists of
messages.  Definitions coming from repository modules that are not part of
the sources at hand (the type system, `or_prev_conds`, the scatter-method
enumeration, the brace-keyword scanner) are modelled from the design
document and marked `Modelled from the spec` in their doc comments.
-/

namespace Janis

/-- A Python value, as far as the builder needs to look at one: the builder
only ever asks a value for its truthiness (`if default:`) and compares
values for equality. -/
inductive PyVal where
  | none
  | bool (b : Bool)
  | int (n : Int)
  | str (s : String)
  deriving DecidableEq, Repr

/-- Python truthiness: `None`, `False`, `0` and `""` are falsy, everything
else is truthy. -/
def PyVal.truthy : PyVal → Bool
  | .none => false
  | .bool b => b
  | .int n => n != 0
  | .str s => s != ""

/-- Modelled from the spec (§3, the repository's type-system module is not
among the sources): a data type is a tagged variant
`{Scalar(kind), File, Directory, Filename, Array(element), Union(members)}`
with an `optional` flag. -/
inductive DataType where
  | scalar (kind : String) (optional : Bool)
  | file (optional : Bool)
  | directory (optional : Bool)
  | filename (optional : Bool)
  | array (element : DataType) (optional : Bool)
  | union (members : List DataType) (optional : Bool)

/-- The `optional` flag of a data type. -/
def DataType.optional : DataType → Bool
  | .scalar _ o => o
  | .file o => o
  | .directory o => o
  | .filename o => o
  | .array _ o => o
  | .union _ o => o

/-- Set the `optional` flag of a data type (the builder mutates
`datatype.optional` in place; here we rebuild the value). -/
def DataType.setOptional : DataType → Bool → DataType
  | .scalar k _, b => .scalar k b
  | .file _, b => .file b
  | .directory _, b => .directory b
  | .filename _, b => .filename b
  | .array e _, b => .array e b
  | .union ms _, b => .union ms b

mutual
/-- Modelled from the spec (§3): `can_receive_from(dst, src)` holds iff the
two types carry the same variant tag (a `Union` destination matches if any
member matches), element-wise compatibility for `Array`, and
`dst.optional ∨ ¬ src.optional` (a required destination cannot accept an
optional source). -/
def DataType.canReceiveFrom : DataType → DataType → Bool
  | .scalar k o, .scalar k2 o2 => k == k2 && (o || !o2)
  | .file o, .file o2 => o || !o2
  | .directory o, .directory o2 => o || !o2
  | .filename o, .filename o2 => o || !o2
  | .array e o, .array e2 o2 => DataType.canReceiveFrom e e2 && (o || !o2)
  | .union ms o, src => DataType.anyMemberReceives ms src && (o || !src.optional)
  | _, _ => false

/-- Helper for the `Union` case of `DataType.canReceiveFrom`: does any
member of the union receive the source type? -/
def DataType.anyMemberReceives : List DataType → DataType → Bool
  | [], _ => false
  | m :: ms, src => DataType.canReceiveFrom m src || DataType.anyMemberReceives ms src
end

theorem DataType.setOptional_optional (t : DataType) (b : Bool) :
    (t.setOptional b).optional = b := by
  cases t <;> rfl

/-! ## StringFormatter (`src/janis_core/operators/stringformatter.py`) -/

/-- An expression bound to a `StringFormatter` placeholder.  The formatter
code only compares bound expressions for equality
(`self.kwargs[k] != other.kwargs[k]`); the spec (§4.2) requires overlapping
placeholders to be bound to *equal* expressions, which we read as
structural equality. -/
inductive Expr where
  | inputSelector (tag : String)
  | strVal (s : String)
  | intVal (n : Int)
  deriving DecidableEq, Repr

/-- One piece of a format template: literal text or a `{name}` placeholder. -/
inductive FmtPart where
  | lit (s : String)
  | placeholder (name : String)
  deriving DecidableEq, Repr

/-- Modelled from the spec (§4.2, the brace-scanning helper
`get_keywords_between_braces` is not among the sources): a template is a
sequence of literal pieces and `{name}` placeholders, so templates carry
their placeholder structure directly and concatenation of templates is
list concatenation. -/
abbrev Template := List FmtPart

/-- Modelled from the spec (§4.2): the set of placeholder names occurring
in a template (`get_keywords_between_braces`). -/
def templateKeywords (t : Template) : Finset String :=
  (t.filterMap fun p =>
    match p with
    | .placeholder n => some n
    | .lit _ => Option.none).toFinset

/-- The errors the formatter code raises (`janis_core.utils.errors`). -/
inductive FmtError where
  | incorrectArgs (missingKeys : Finset String)
  | tooManyArgs (extraKeys : Finset String)
  | conflictingArguments (keys : List String)
  | invalidByProduct (newParams : Finset String)
  deriving DecidableEq

/-- A constructed `StringFormatter`: a template and keyword bindings
(`self._format`, `self.kwargs`); the kwargs dictionary is an
insertion-ordered association list. -/
structure StringFormatter where
  format : Template
  kwargs : List (String × Expr)
  deriving DecidableEq

/-- Source `StringFormatter.__init__`: scan the template for placeholder names and
require that set to equal the keyword-argument key set; a placeholder with
no binding raises `IncorrectArgsException` and an extra binding raises
`TooManyArgsException`. -/
def StringFormatter.init (format : Template) (kwargs : List (String × Expr)) :
    Except FmtError StringFormatter :=
  let keywords := templateKeywords format
  let skwargs := (kwargs.map Prod.fst).toFinset
  if keywords ≠ skwargs then
    if ¬ keywords ⊆ skwargs then
      .error (.incorrectArgs (keywords \ skwargs))
    else
      .error (.tooManyArgs (skwargs \ keywords))
  else
    .ok ⟨format, kwargs⟩

/-- Python's `{**a, **b}` on insertion-ordered dictionaries: the keys of
`a` in order (values overridden by `b` where both bind the key), then the
keys of `b` not present in `a`. -/
def dictUnion (a b : List (String × Expr)) : List (String × Expr) :=
  (a.map fun kv => (kv.1, (b.lookup kv.1).getD kv.2))
  ++ b.filter fun kv => (a.lookup kv.1).isNone

/-- Source `StringFormatter._create_new_formatter_from_strings_and_args`: join the
templates and re-run the constructor;  a resulting `IncorrectArgsException`
is converted into an `InvalidByProductException` naming the newly created
parameters. -/
def StringFormatter.createNewFormatterFromStringsAndArgs
    (strings : List Template) (kwargs : List (String × Expr)) :
    Except FmtError StringFormatter :=
  let newFormat := strings.flatten
  match StringFormatter.init newFormat kwargs with
  | .ok f => .ok f
  | .error (.incorrectArgs _) =>
      .error (.invalidByProduct
        (templateKeywords newFormat \ (kwargs.map Prod.fst).toFinset))
  | .error e => .error e

/-- The conflicting keys computed by `StringFormatter.__add__`: keys bound
by both formatters whose bound expressions differ. -/
def StringFormatter.notSameArgs (f g : StringFormatter) : List String :=
  ((f.kwargs.map Prod.fst).filter fun k => k ∈ g.kwargs.map Prod.fst).filter
    fun k => f.kwargs.lookup k ≠ g.kwargs.lookup k

/-- Source `StringFormatter.__add__` restricted to the `StringFormatter` operand
case: keys bound by both formatters must be bound to equal expressions
(else `ConflictingArgumentsException`); otherwise the kwargs dictionaries
are merged (`{**self.kwargs, **other.kwargs}`) and the templates
concatenated. -/
def StringFormatter.add (f g : StringFormatter) : Except FmtError StringFormatter :=
  if f.notSameArgs g ≠ [] then
    .error (.conflictingArguments (f.notSameArgs g))
  else
    let newArgs := dictUnion f.kwargs g.kwargs
    StringFormatter.createNewFormatterFromStringsAndArgs [f.format, g.format] newArgs

theorem templateKeywords_append (s t : Template) :
    templateKeywords (s ++ t) = templateKeywords s ∪ templateKeywords t := by
  simp [templateKeywords, List.filterMap_append]

theorem lookup_isSome_iff (l : List (String × Expr)) (k : String) :
    (l.lookup k).isSome = true ↔ k ∈ l.map Prod.fst := by
  induction l with
  | nil => simp [List.lookup]
  | cons kv rest ih =>
    rcases kv with ⟨k1, v1⟩
    by_cases h : k = k1
    · subst h; simp [List.lookup]
    · have hbeq : (k == k1) = false := by simp [h]
      simp [List.lookup, hbeq, ih, h]

theorem lookup_eq_none_iff (l : List (String × Expr)) (k : String) :
    l.lookup k = Option.none ↔ k ∉ l.map Prod.fst := by
  rw [← lookup_isSome_iff]
  cases l.lookup k <;> simp

theorem lookup_append_or (a b : List (String × Expr)) (k : String) :
    (a ++ b).lookup k = (a.lookup k).or (b.lookup k) := by
  induction a with
  | nil => simp [List.lookup]
  | cons kv rest ih =>
    rcases kv with ⟨k1, v1⟩
    by_cases h : k = k1
    · subst h; simp [List.lookup]
    · have hbeq : (k == k1) = false := by simp [h]
      simp [List.lookup, hbeq, ih]

theorem lookup_map_override (a b : List (String × Expr)) (k : String) :
    (a.map fun kv => (kv.1, (b.lookup kv.1).getD kv.2)).lookup k =
      (a.lookup k).map fun v => (b.lookup k).getD v := by
  induction a with
  | nil => simp [List.lookup]
  | cons kv rest ih =>
    rcases kv with ⟨k1, v1⟩
    by_cases h : k = k1
    · subst h; simp [List.lookup]
    · have hbeq : (k == k1) = false := by simp [h]
      simp [List.lookup, hbeq, ih]

theorem lookup_filter_of_isSome (a b : List (String × Expr)) (k : String)
    (h : (a.lookup k).isSome = true) :
    (b.filter fun kv => (a.lookup kv.1).isNone).lookup k = Option.none := by
  induction b with
  | nil => simp [List.lookup]
  | cons kv rest ih =>
    rcases kv with ⟨k1, v1⟩
    by_cases hk : k = k1
    · subst hk
      have hfalse : (a.lookup k).isNone = false := by
        cases hl : a.lookup k
        · rw [hl] at h; simp at h
        · simp [hl]
      simpa [List.filter_cons, hfalse] using ih
    · have hbeq : (k == k1) = false := by simp [hk]
      by_cases hn : (a.lookup k1).isNone = true
      · simp [List.filter_cons, hn, List.lookup, hbeq, ih]
      · have hnf : (a.lookup k1).isNone = false := by simpa using hn
        simpa [List.filter_cons, hnf] using ih

theorem lookup_filter_of_none (a b : List (String × Expr)) (k : String)
    (h : a.lookup k = Option.none) :
    (b.filter fun kv => (a.lookup kv.1).isNone).lookup k = b.lookup k := by
  induction b with
  | nil => simp
  | cons kv rest ih =>
    rcases kv with ⟨k1, v1⟩
    by_cases hk : k = k1
    · subst hk
      have hn : (a.lookup k).isNone = true := by simp [h]
      simp [List.filter_cons, hn, List.lookup]
    · have hbeq : (k == k1) = false := by simp [hk]
      by_cases hn : (a.lookup k1).isNone = true
      · simp [List.filter_cons, hn, List.lookup, hbeq, ih]
      · have hnf : (a.lookup k1).isNone = false := by simpa using hn
        simp [List.filter_cons, hnf, List.lookup, hbeq, ih]

theorem dictUnion_lookup (a b : List (String × Expr)) (k : String) :
    (dictUnion a b).lookup k =
      match a.lookup k with
      | some v => some ((b.lookup k).getD v)
      | Option.none => b.lookup k := by
  rw [dictUnion, lookup_append_or, lookup_map_override]
  cases hl : a.lookup k with
  | none =>
    rw [lookup_filter_of_none a b k hl]
    simp
  | some v =>
    rw [lookup_filter_of_isSome a b k (by simp [hl])]
    simp

theorem dictUnion_keys (a b : List (String × Expr)) :
    ((dictUnion a b).map Prod.fst).toFinset =
      (a.map Prod.fst).toFinset ∪ (b.map Prod.fst).toFinset := by
  ext k
  constructor
  · intro h
    simp only [List.mem_toFinset, List.mem_map] at h
    obtain ⟨kv, hkv, hfst⟩ := h
    simp only [dictUnion, List.mem_append, List.mem_map, List.mem_filter] at hkv
    rcases hkv with ⟨kv0, hkv0, he⟩ | ⟨hkv1, _⟩
    · subst he
      simp only [Finset.mem_union, List.mem_toFinset, List.mem_map]
      exact Or.inl ⟨kv0, hkv0, hfst⟩
    · simp only [Finset.mem_union, List.mem_toFinset, List.mem_map]
      exact Or.inr ⟨kv, hkv1, hfst⟩
  · intro h
    simp only [Finset.mem_union, List.mem_toFinset, List.mem_map] at h
    simp only [List.mem_toFinset, List.mem_map]
    rcases h with ⟨kv, hkv, hfst⟩ | ⟨kv, hkv, hfst⟩
    · exact ⟨(kv.1, ((b.lookup kv.1).getD kv.2)), by
        simp only [dictUnion, List.mem_append, List.mem_map]
        exact Or.inl ⟨kv, hkv, rfl⟩, hfst⟩
    · by_cases hn : (a.lookup kv.1).isNone
      · exact ⟨kv, by
          simp only [dictUnion, List.mem_append, List.mem_filter]
          exact Or.inr ⟨hkv, by simpa using hn⟩, hfst⟩
      · have hsome : (a.lookup kv.1).isSome = true := by
          cases hl : a.lookup kv.1 <;> simp [hl] at hn ⊢
        have hmem : kv.1 ∈ a.map Prod.fst := (lookup_isSome_iff a kv.1).mp hsome
        simp only [List.mem_map] at hmem
        obtain ⟨kv0, hkv0, hfst0⟩ := hmem
        exact ⟨(kv0.1, ((b.lookup kv0.1).getD kv0.2)), by
          simp only [dictUnion, List.mem_append, List.mem_map]
          exact Or.inl ⟨kv0, hkv0, rfl⟩, by rw [hfst0, hfst]⟩

/-- Helper `not_same_args` in `__add__` is empty exactly when no key bound by both
formatters is bound to unequal expressions. -/
theorem notSameArgs_eq_nil_iff (f g : StringFormatter) :
    f.notSameArgs g = [] ↔
      ¬ ∃ k, k ∈ f.kwargs.map Prod.fst ∧ k ∈ g.kwargs.map Prod.fst ∧
        f.kwargs.lookup k ≠ g.kwargs.lookup k := by
  rw [List.eq_nil_iff_forall_not_mem]
  simp only [StringFormatter.notSameArgs, List.mem_filter, not_exists,
    decide_eq_true_eq]
  constructor
  · intro h k hk
    exact h k ⟨⟨hk.1, hk.2.1⟩, hk.2.2⟩
  · intro h k hk
    exact h k ⟨hk.1.1, hk.1.2, hk.2⟩

/-- When `not_same_args` is empty and both operands satisfy the constructor
invariant, `__add__` reconstructs a formatter from the concatenated
templates and the merged kwargs dictionary. -/
theorem StringFormatter.add_success (f g : StringFormatter)
    (hf : templateKeywords f.format = (f.kwargs.map Prod.fst).toFinset)
    (hg : templateKeywords g.format = (g.kwargs.map Prod.fst).toFinset)
    (hnil : f.notSameArgs g = []) :
    f.add g = .ok ⟨f.format ++ g.format, dictUnion f.kwargs g.kwargs⟩ := by
  have hkw : templateKeywords (f.format ++ g.format) =
      ((dictUnion f.kwargs g.kwargs).map Prod.fst).toFinset := by
    rw [templateKeywords_append, dictUnion_keys, hf, hg]
  have hinit : StringFormatter.init (f.format ++ g.format)
      (dictUnion f.kwargs g.kwargs) =
      .ok ⟨f.format ++ g.format, dictUnion f.kwargs g.kwargs⟩ := by
    simp [StringFormatter.init, hkw]
  have hflat : ([f.format, g.format] : List Template).flatten
      = f.format ++ g.format := by simp
  unfold StringFormatter.add StringFormatter.createNewFormatterFromStringsAndArgs
  rw [if_neg (by simp [hnil])]
  simp only [hflat, hinit]

/-- Claim C7: merging two `StringFormatter`s fails with a
conflicting-arguments error if and only if some placeholder name bound by
both is bound to unequal expressions; otherwise it succeeds, the result's
template is `f`'s template followed by `g`'s template, and its binding map
is the union of both binding maps
(`StringFormatter.__add__`, `src/janis_core/operators/stringformatter.py`
lines 140-160). -/
theorem stringformatter_add_conflict_iff_else_union (f g : StringFormatter)
    (hf : templateKeywords f.format = (f.kwargs.map Prod.fst).toFinset)
    (hg : templateKeywords g.format = (g.kwargs.map Prod.fst).toFinset) :
    ((∃ k, k ∈ f.kwargs.map Prod.fst ∧ k ∈ g.kwargs.map Prod.fst ∧
        f.kwargs.lookup k ≠ g.kwargs.lookup k) ↔
      (∃ ks, f.add g = .error (.conflictingArguments ks)))
    ∧ ((¬ ∃ k, k ∈ f.kwargs.map Prod.fst ∧ k ∈ g.kwargs.map Prod.fst ∧
          f.kwargs.lookup k ≠ g.kwargs.lookup k) →
        f.add g = .ok ⟨f.format ++ g.format, dictUnion f.kwargs g.kwargs⟩
        ∧ ∀ k, (dictUnion f.kwargs g.kwargs).lookup k =
            ((f.kwargs.lookup k).or (g.kwargs.lookup k))) := by
  constructor
  · constructor
    · intro h
      have hne : f.notSameArgs g ≠ [] := by
        rw [Ne, notSameArgs_eq_nil_iff]
        simpa using h
      refine ⟨f.notSameArgs g, ?_⟩
      unfold StringFormatter.add
      rw [if_pos hne]
    · rintro ⟨ks, he⟩
      by_contra hno
      have hnil := (notSameArgs_eq_nil_iff f g).mpr hno
      rw [StringFormatter.add_success f g hf hg hnil] at he
      exact Except.noConfusion he
  · intro hno
    have hnil := (notSameArgs_eq_nil_iff f g).mpr hno
    refine ⟨StringFormatter.add_success f g hf hg hnil, fun k => ?_⟩
    rw [dictUnion_lookup]
    cases hfl : f.kwargs.lookup k with
    | none => simp
    | some v =>
      cases hgl : g.kwargs.lookup k with
      | none => simp [Option.or]
      | some w =>
        have hkf : k ∈ f.kwargs.map Prod.fst :=
          (lookup_isSome_iff _ _).mp (by simp [hfl])
        have hkg : k ∈ g.kwargs.map Prod.fst :=
          (lookup_isSome_iff _ _).mp (by simp [hgl])
        have heq : f.kwargs.lookup k = g.kwargs.lookup k := by
          by_contra hne
          exact hno ⟨k, hkf, hkg, hne⟩
        rw [hfl, hgl] at heq
        injection heq with hvw
        subst hvw
        simp [Option.or]

/-- Witness for the merge theorem: two concrete formatters with disjoint
placeholders merge into the concatenated template. -/
theorem stringformatter_add_conflict_iff_else_union_witness :
    StringFormatter.add
        ⟨[FmtPart.lit "in ", FmtPart.placeholder "x"], [("x", Expr.intVal 1)]⟩
        ⟨[FmtPart.placeholder "y"], [("y", Expr.intVal 2)]⟩ =
      .ok ⟨[FmtPart.lit "in ", FmtPart.placeholder "x", FmtPart.placeholder "y"],
           [("x", Expr.intVal 1), ("y", Expr.intVal 2)]⟩ := by
  have h := (stringformatter_add_conflict_iff_else_union
      ⟨[FmtPart.lit "in ", FmtPart.placeholder "x"], [("x", Expr.intVal 1)]⟩
      ⟨[FmtPart.placeholder "y"], [("y", Expr.intVal 2)]⟩
      (by decide) (by decide)).2 (by decide)
  rw [h.1]
  rfl

/-- Claim C8: the `StringFormatter` constructor fails with an
incorrect-args error when the template's placeholder set is not a subset of
the keyword-argument keys, fails with a too-many-args error when the
keyword keys strictly contain the placeholder set, and succeeds, storing
the bindings, when the two sets are equal
(`StringFormatter.__init__`, `src/janis_core/operators/stringformatter.py`
lines 26-51). -/
theorem stringformatter_init_placeholder_discipline
    (format : Template) (kwargs : List (String × Expr)) :
    (¬ templateKeywords format ⊆ (kwargs.map Prod.fst).toFinset →
       StringFormatter.init format kwargs =
         .error (.incorrectArgs
           (templateKeywords format \ (kwargs.map Prod.fst).toFinset)))
    ∧ (templateKeywords format ⊂ (kwargs.map Prod.fst).toFinset →
       StringFormatter.init format kwargs =
         .error (.tooManyArgs
           ((kwargs.map Prod.fst).toFinset \ templateKeywords format)))
    ∧ (templateKeywords format = (kwargs.map Prod.fst).toFinset →
       StringFormatter.init format kwargs = .ok ⟨format, kwargs⟩) := by
  refine ⟨fun h => ?_, fun h => ?_, fun h => ?_⟩
  · have hne : templateKeywords format ≠ (kwargs.map Prod.fst).toFinset := by
      intro he
      exact h (he ▸ Finset.Subset.refl _)
    simp [StringFormatter.init, hne, h]
  · have hsub := (Finset.ssubset_iff_subset_ne.mp h).1
    have hne := (Finset.ssubset_iff_subset_ne.mp h).2
    simp [StringFormatter.init, hne, hsub]
  · simp [StringFormatter.init, h]

/-- Witness for the constructor theorem: each of the three branches on a
concrete template and binding list. -/
theorem stringformatter_init_placeholder_discipline_witness :
    (StringFormatter.init [FmtPart.lit "hello ", FmtPart.placeholder "name"]
        [("name", Expr.strVal "world")] =
      .ok ⟨[FmtPart.lit "hello ", FmtPart.placeholder "name"],
           [("name", Expr.strVal "world")]⟩)
    ∧ (StringFormatter.init [FmtPart.placeholder "name"] [] =
      .error (.incorrectArgs
        (templateKeywords [FmtPart.placeholder "name"] \
          (([] : List (String × Expr)).map Prod.fst).toFinset)))
    ∧ (StringFormatter.init [] [("name", Expr.strVal "world")] =
      .error (.tooManyArgs
        (([("name", Expr.strVal "world")].map Prod.fst).toFinset \
          templateKeywords []))) :=
  ⟨(stringformatter_init_placeholder_discipline _ _).2.2 (by decide),
   (stringformatter_init_placeholder_discipline _ _).1 (by decide),
   (stringformatter_init_placeholder_discipline _ _).2.1 (by decide)⟩

/-! ## The workflow graph builder (`src/janis_core/workflow/workflow.py`) -/

/-- An input node of the workflow graph (`InputNode.__init__`). -/
structure InputNode where
  identifier : String
  datatype : DataType
  default : PyVal
  value : PyVal

/-- Modelled from the spec (§3/§7, the `Validators` module is not among the
sources): identifiers are validated against an identifier grammar; we use
the usual one (nonempty, a letter or underscore first, letters, digits and
underscores afterwards). -/
def validateIdentifier (s : String) : Bool :=
  s ≠ "" &&
  (match s.toList with
   | [] => false
   | c :: _ => c.isAlpha || c == '_') &&
  s.toList.all fun c => c.isAlphanum || c == '_'

/-- Modelled from the spec (§7 "collision with an existing node or reserved
name"): the builder attributes that `Workflow.verify_identifier` protects
(`identifier in self.__dict__`). -/
def reservedWorkflowAttributes : List String :=
  ["connections", "nodes", "input_nodes", "step_nodes", "output_nodes",
   "has_scatter", "has_subworkflow", "has_multiple_inputs", "metadata"]

/-- The mutable builder state of a `Workflow`: the identifier-keyed node
map (modelled by its key list, in insertion order) plus the input and step
node collections the claims need. -/
structure Workflow where
  identifier : String
  nodeIds : List String
  inputNodes : List InputNode
  stepIds : List String

/-- Source `Workflow.verify_identifier`: a protected builder attribute, a clash
with an existing node, or an identifier rejected by the grammar is fatal. -/
def Workflow.verifyIdentifier (w : Workflow) (identifier : String) :
    Except String Unit :=
  if identifier ∈ reservedWorkflowAttributes then
    .error (identifier ++ " is a protected keyword for a janis workflow")
  else if identifier ∈ w.nodeIds then
    .error ("There already exists a node (and component) with id " ++ identifier)
  else if ¬ validateIdentifier identifier then
    .error ("The identifier " ++ identifier ++ " was invalid")
  else
    .ok ()

/-- Source `Workflow.input`: create an input node.  Mirrors the source exactly:
after verifying the identifier it runs `if default: datatype.optional =
True` — the *truthiness* of the supplied default, not its presence,
decides whether the datatype is made optional — and then registers the new
node. -/
def Workflow.input (w : Workflow) (identifier : String) (datatype : DataType)
    (default : PyVal) (value : PyVal) : Except String (Workflow × InputNode) :=
  match w.verifyIdentifier identifier with
  | .error e => .error e
  | .ok _ =>
    let datatype := if default.truthy then datatype.setOptional true else datatype
    let inp : InputNode := ⟨identifier, datatype, default, value⟩
    .ok ({ w with
            nodeIds := w.nodeIds ++ [identifier],
            inputNodes := w.inputNodes ++ [inp] }, inp)

/-- Claim C9, counterexample: `Workflow.input` runs `if default:` on the
supplied default, so the *falsy* default `0` — a supplied default value —
leaves the created input node's datatype required: the claim that every
supplied default marks the datatype optional fails at this input
(`Workflow.input`, `src/janis_core/workflow/workflow.py` lines 334-336). -/
theorem workflow_input_zero_default_not_optional :
    ((⟨"wf", [], [], []⟩ : Workflow).input "inp"
        (DataType.scalar "Integer" false) (PyVal.int 0) PyVal.none).toOption.map
        (fun p => p.2.datatype.optional) = some false
    ∧ ((⟨"wf", [], [], []⟩ : Workflow).input "inp"
        (DataType.scalar "Integer" false) (PyVal.int 0) PyVal.none).toOption.map
        (fun p => p.2.default) = some (PyVal.int 0)
    ∧ PyVal.int 0 ≠ PyVal.none :=
  ⟨rfl, rfl, by decide⟩

/-- Claim C9, amended: an input node created by `Workflow.input` has its
datatype marked optional exactly when the supplied default is *truthy*
(Python truthiness); a falsy default — `0`, `False`, `""` or absent —
leaves the datatype's optionality unchanged
(`Workflow.input`, `src/janis_core/workflow/workflow.py` lines 319-348). -/
theorem workflow_input_truthy_default_optional
    (w : Workflow) (identifier : String) (datatype : DataType)
    (default value : PyVal)
    (hok : w.verifyIdentifier identifier = .ok ()) :
    (w.input identifier datatype default value).toOption.map
        (fun p => p.2.datatype) =
      some (if default.truthy then datatype.setOptional true else datatype)
    ∧ (w.input identifier datatype default value).toOption.map
        (fun p => p.2.datatype.optional) =
      some (default.truthy || datatype.optional) := by
  unfold Workflow.input
  rw [hok]
  refine ⟨rfl, ?_⟩
  by_cases h : default.truthy <;>
    simp [h, DataType.setOptional_optional, Except.toOption]

/-- Witness for the amended input theorem: a truthy default on a concrete
workflow marks the created node optional. -/
theorem workflow_input_truthy_default_optional_witness :
    ((⟨"wf", [], [], []⟩ : Workflow).input "inp"
        (DataType.scalar "String" false) (PyVal.str "hello")
        PyVal.none).toOption.map (fun p => p.2.datatype.optional) = some true :=
  ((workflow_input_truthy_default_optional ⟨"wf", [], [], []⟩ "inp"
      (DataType.scalar "String" false) (PyVal.str "hello") PyVal.none
      rfl).2).trans (by decide)

/-- A tool input as reported by `Tool.inputs_map()`
(`TInput` in `janis_core.tool.tool`, a declaration used by the sources). -/
structure TInput where
  tag : String
  intype : DataType
  default : PyVal

/-- What `StepNode._add_edge` inspects about the node an edge comes from:
whether the source is a step node and, if so, its two conditional flags. -/
structure EdgeSourceInfo where
  isStepNode : Bool
  hasConditionals : Bool
  parentHasConditionals : Bool

/-- The `StepNode` state the conditional-propagation claims are about: the
tool's declared inputs, the step's own `has_conditionals` (set iff a
`when` guard was given at construction), the inherited
`parent_has_conditionals`, and the set of bound source tags. -/
structure StepState where
  identifier : String
  toolInputs : List TInput
  hasConditionals : Bool
  parentHasConditionals : Bool
  boundTags : List String

/-- Source `StepNode.inputs`: the tool's input map, except that when the step has
conditionals of its own or inherited ones, every input type is copied with
`optional = True` (`src/janis_core/workflow/workflow.py` lines 121-135). -/
def StepState.inputs (s : StepState) : List TInput :=
  if s.parentHasConditionals || s.hasConditionals then
    s.toolInputs.map fun iv => { iv with intype := iv.intype.setOptional true }
  else
    s.toolInputs

/-- Source `StepNode._add_edge`: if the source node is a step with conditionals
(direct or inherited), set `parent_has_conditionals`; then record the
bound tag (`src/janis_core/workflow/workflow.py` lines 151-165). -/
def StepState.addEdge (s : StepState) (tag : String) (src : EdgeSourceInfo) :
    StepState :=
  let s :=
    if src.isStepNode && (src.hasConditionals || src.parentHasConditionals) then
      { s with parentHasConditionals := true }
    else s
  if tag ∈ s.boundTags then s else { s with boundTags := s.boundTags ++ [tag] }

/-- Folding a sequence of `_add_edge` calls over a step. -/
def StepState.addEdges (s : StepState) (edges : List (String × EdgeSourceInfo)) :
    StepState :=
  edges.foldl (fun st e => st.addEdge e.1 e.2) s

theorem StepState.addEdge_parentHasConditionals (s : StepState) (tag : String)
    (src : EdgeSourceInfo) :
    (s.addEdge tag src).parentHasConditionals =
      (s.parentHasConditionals ||
        (src.isStepNode && (src.hasConditionals || src.parentHasConditionals))) := by
  unfold StepState.addEdge
  by_cases h : src.isStepNode && (src.hasConditionals || src.parentHasConditionals) <;>
    simp [h] <;> split <;> rfl

/-- Claim C6: a step with a `when` guard of its own, or one that has bound an
edge from a conditional step, reports every input with an optional type;
`parent_has_conditionals` is set exactly at edge-binding time (when the
edge's source is a step with direct or inherited conditionals) and is never
cleared by any later edge binding
(`StepNode.inputs` and `StepNode._add_edge`,
`src/janis_core/workflow/workflow.py` lines 121-135 and 151-165). -/
theorem stepnode_conditionals_inputs_optional (s : StepState) (tag : String)
    (src : EdgeSourceInfo) (edges : List (String × EdgeSourceInfo))
    (h : s.hasConditionals = true ∨ s.parentHasConditionals = true) :
    (∀ i ∈ s.inputs, i.intype.optional = true)
    ∧ ((s.addEdge tag src).parentHasConditionals =
        (s.parentHasConditionals ||
          (src.isStepNode && (src.hasConditionals || src.parentHasConditionals))))
    ∧ (s.parentHasConditionals = true →
        (s.addEdges edges).parentHasConditionals = true) := by
  refine ⟨?_, StepState.addEdge_parentHasConditionals s tag src, ?_⟩
  · intro i hi
    have hcond : (s.parentHasConditionals || s.hasConditionals) = true := by
      rcases h with h | h <;> simp [h]
    rw [StepState.inputs, if_pos hcond] at hi
    obtain ⟨iv, _, he⟩ := List.mem_map.mp hi
    rw [← he]
    exact DataType.setOptional_optional iv.intype true
  · intro hp
    induction edges generalizing s with
    | nil => exact hp
    | cons e rest ih =>
      have hstep : (s.addEdge e.1 e.2).parentHasConditionals = true := by
        rw [StepState.addEdge_parentHasConditionals, hp]
        rfl
      exact ih (s.addEdge e.1 e.2) (Or.inr hstep) hstep

/-- Witness for the conditional-propagation theorem: a concrete step that
inherited conditionals reports its single input as optional and keeps the
flag across a further edge binding. -/
theorem stepnode_conditionals_inputs_optional_witness :
    (∀ i ∈ (⟨"s", [⟨"bam", DataType.file false, PyVal.none⟩], false, true,
        []⟩ : StepState).inputs, i.intype.optional = true)
    ∧ (((⟨"s", [⟨"bam", DataType.file false, PyVal.none⟩], false, true,
        []⟩ : StepState).addEdge "bam" ⟨true, false, false⟩).parentHasConditionals =
        (true || (true && (false || false))))
    ∧ (true = true →
        ((⟨"s", [⟨"bam", DataType.file false, PyVal.none⟩], false, true,
          []⟩ : StepState).addEdges
            [("bam", ⟨true, false, false⟩)]).parentHasConditionals = true) :=
  stepnode_conditionals_inputs_optional
    ⟨"s", [⟨"bam", DataType.file false, PyVal.none⟩], false, true, []⟩
    "bam" ⟨true, false, false⟩ [("bam", ⟨true, false, false⟩)] (Or.inr rfl)

/-- Node kinds (`NodeTypes` in `janis_core.graph.node`). -/
inductive NodeType where
  | input
  | step
  | output
  deriving DecidableEq, Repr

/-- Pick-value policies (`janis_core.utils.pickvalue`, a declaration used
by the sources; the spec names `first_non_null` and `all_non_null`). -/
inductive PickValue where
  | firstNonNull
  | allNonNull
  deriving DecidableEq, Repr

/-- What `OutputNode.__init__` inspects about a resolved connection
source: the source node's identifier and kind, the selected output tag and
its type, and whether the sourcing step is scattered. -/
structure ConnectionSourceInfo where
  nodeId : String
  nodeType : NodeType
  tag : String
  outtype : DataType
  sourceScattered : Bool

/-- An output node of the workflow graph (`OutputNode.__init__`). -/
structure OutputNode where
  identifier : String
  datatype : DataType
  pickValue : Option PickValue

/-- The type an output's first source effectively carries: the source
output's type, promoted to `Array` when the sourcing step is scattered
(`src/janis_core/workflow/workflow.py` lines 232-237). -/
def effectiveSourceType (src : ConnectionSourceInfo) : DataType :=
  if src.sourceScattered then DataType.array src.outtype false else src.outtype

/-- The raw `source` parameter of `OutputNode.__init__`: a single
connection source or a list of them (`Union[List[ConnectionSource],
ConnectionSource]`).  The distinction matters: the mismatch log message
interpolates `source.node.id()` on this *raw* parameter, which only exists
on a non-list source. -/
inductive OutputSourceArg where
  | single (s : ConnectionSourceInfo)
  | list (ss : List ConnectionSourceInfo)

/-- The normalization `sources = source if isinstance(source, list) else
[source]` (`src/janis_core/workflow/workflow.py` line 221). -/
def outputSourcesOf : OutputSourceArg → List ConnectionSourceInfo
  | .single s => [s]
  | .list ss => ss

/-- Source `OutputNode.__init__`
(`src/janis_core/workflow/workflow.py` lines 204-249): every source must
be a step node (else fatal); then, when the declared datatype cannot
receive the first source's effective type, the code builds the
`Logger.critical` f-string which reads `source.node.id()` and
`source.tag` on the *raw* constructor parameter — for a single source
this logs the mismatch (returned here as a warning list) and the node is
still created with the declared datatype, but for a list-typed source the
attribute access raises `AttributeError` before the logger is called, so
construction raises on that path and no node is created. -/
def OutputNode.init (identifier : String) (datatype : DataType)
    (source : OutputSourceArg) (pickValue : Option PickValue) :
    Except String (OutputNode × List String) :=
  match outputSourcesOf source with
  | [] => .error "IndexError: list index out of range"
  | firstSource :: _ =>
    if (outputSourcesOf source).any (fun s => s.nodeType != NodeType.step) then
      .error "Unsupported connection type: OUTPUT requires step sources"
    else
      let stype := effectiveSourceType firstSource
      if datatype.canReceiveFrom stype then
        .ok (⟨identifier, datatype, pickValue⟩, [])
      else
        match source with
        | .single s =>
          .ok (⟨identifier, datatype, pickValue⟩,
            ["Mismatch of types when joining to output node " ++
              s.nodeId ++ "." ++ s.tag ++ " to " ++ identifier])
        | .list _ =>
          .error "AttributeError: list object has no attribute node"

/-- The CWL projection of a workflow output (`translate_output` in
`src/janis_core/translations/cwl.py` lines 626-642; the `Stdout`
special-case is not modelled since output nodes never carry it). -/
structure WorkflowOutputParameter where
  paramId : String
  outputSource : String
  paramType : DataType

/-- Source `translate_output`: the emitted parameter carries the output node's
declared datatype. -/
def translate_output (outp : OutputNode) (source : String) :
    WorkflowOutputParameter :=
  ⟨outp.identifier, source, outp.datatype⟩

/-- Claim C5, counterexample: a multi-source output (a *list* `source`
parameter, as `Workflow.output` passes for multiple sources) whose
declared datatype cannot receive its first source's effective type makes
`OutputNode.__init__` raise — the mismatch f-string reads
`source.node.id()` on the list, an `AttributeError` — so construction
*does* raise and no output node is created, refuting the claim that such
construction always logs and continues
(`src/janis_core/workflow/workflow.py` lines 239-243). -/
theorem outputnode_list_source_mismatch_raises_counterexample :
    OutputNode.init "out" (DataType.scalar "String" false)
        (OutputSourceArg.list
          [⟨"stpA", NodeType.step, "outFile", DataType.file false, false⟩,
           ⟨"stpB", NodeType.step, "outFile", DataType.file false, false⟩])
        (some PickValue.firstNonNull) =
      .error "AttributeError: list object has no attribute node"
    ∧ (DataType.scalar "String" false).canReceiveFrom
        (effectiveSourceType
          ⟨"stpA", NodeType.step, "outFile", DataType.file false, false⟩) = false
    ∧ (outputSourcesOf (OutputSourceArg.list
        [⟨"stpA", NodeType.step, "outFile", DataType.file false, false⟩,
         ⟨"stpB", NodeType.step, "outFile", DataType.file false, false⟩])).all
        (fun s => s.nodeType == NodeType.step) = true :=
  ⟨rfl, rfl, rfl⟩

/-- Claim C5, amended: when an output node with a *single* (non-list)
source has a declared datatype that cannot receive the source's effective
type, construction logs a mismatch message but does not raise: the node
is created carrying the declared datatype, and the translation of that
node proceeds with the declared datatype.  (For a list-typed source the
same mismatch raises an `AttributeError` while building the log message —
see the counterexample.)
(`OutputNode.__init__`, `src/janis_core/workflow/workflow.py` lines
236-249, and `translate_output`, `src/janis_core/translations/cwl.py`). -/
theorem outputnode_single_source_mismatch_warns_not_fatal
    (identifier : String) (datatype : DataType) (src : ConnectionSourceInfo)
    (pickValue : Option PickValue)
    (hstep : src.nodeType = NodeType.step)
    (hmismatch : datatype.canReceiveFrom (effectiveSourceType src) = false) :
    OutputNode.init identifier datatype (OutputSourceArg.single src) pickValue =
      .ok (⟨identifier, datatype, pickValue⟩,
        ["Mismatch of types when joining to output node " ++
          src.nodeId ++ "." ++ src.tag ++ " to " ++ identifier])
    ∧ (translate_output ⟨identifier, datatype, pickValue⟩ "src").paramType
        = datatype := by
  constructor
  · unfold OutputNode.init
    simp [outputSourcesOf, hstep, hmismatch]
  · rfl

/-- Witness for the single-source output-mismatch theorem: a `String`
output declared on a `File`-typed single source is created with a logged
warning. -/
theorem outputnode_single_source_mismatch_warns_not_fatal_witness :
    OutputNode.init "out" (DataType.scalar "String" false)
        (OutputSourceArg.single
          ⟨"stp", NodeType.step, "outFile", DataType.file false, false⟩)
        Option.none =
      .ok (⟨"out", DataType.scalar "String" false, Option.none⟩,
        ["Mismatch of types when joining to output node " ++
          "stp" ++ "." ++ "outFile" ++ " to " ++ "out"])
    ∧ (translate_output ⟨"out", DataType.scalar "String" false, Option.none⟩
        "src").paramType = DataType.scalar "String" false :=
  outputnode_single_source_mismatch_warns_not_fatal "out"
    (DataType.scalar "String" false)
    ⟨"stp", NodeType.step, "outFile", DataType.file false, false⟩ Option.none
    rfl rfl

/-! ## Scatter lowering (`Workflow.step` and `translate_step`) -/

/-- Modelled from the spec (§3, the `janis_core.utils.scatter` module is
not among the sources): the scatter methods `{dot, flat-cross,
nested-cross}`. -/
inductive ScatterMethod where
  | dot
  | flatCross
  | nestedCross
  deriving DecidableEq, Repr

/-- Modelled from the spec (glossary: dot-product vs. cross-product
combination of scattered fields): the CWL rendering
`ScatterMethods.<m>.cwl()` used by `translate_step`. -/
def ScatterMethod.cwl : ScatterMethod → String
  | .dot => "dotproduct"
  | .flatCross => "flat_crossproduct"
  | .nestedCross => "nested_crossproduct"

/-- Source `ScatterDescription`: the scattered fields and the combination method
(`janis_core.utils.scatter`, a declaration used by the sources). -/
structure ScatterDescription where
  fields : List String
  method : ScatterMethod
  deriving DecidableEq, Repr

/-- The `scatter` argument accepted by `Workflow.step`: a single field
name, a list of field names, or an explicit `ScatterDescription`. -/
inductive ScatterInput where
  | str (field : String)
  | fieldList (fields : List String)
  | description (d : ScatterDescription)

/-- The scatter normalization in `Workflow.step`: a plain string or field
list — a scatter *without an explicit method* — is wrapped into
`ScatterDescription(fields, method=ScatterMethods.dot)`; the dot method is
the construction default regardless of how many fields are scattered
(`src/janis_core/workflow/workflow.py` lines 506-518). -/
def stepScatterNormalize : ScatterInput → ScatterDescription
  | .str s => ⟨[s], ScatterMethod.dot⟩
  | .fieldList fs => ⟨fs, ScatterMethod.dot⟩
  | .description d => d

/-- The scatter-field validation in `Workflow.step`: every requested field
must be a declared tool input tag
(`src/janis_core/workflow/workflow.py` lines 520-530). -/
def stepScatterVerify (identifier : String) (sd : ScatterDescription)
    (toolInputTags : List String) : Except String Unit :=
  if sd.fields.any (fun f => f ∉ toolInputTags) then
    .error ("Couldn't scatter the field(s) for step " ++ identifier ++
      " as they were not found in the input map")
  else
    .ok ()

/-- The scatter fragment of a lowered CWL workflow step. -/
structure CwlWorkflowStep where
  stepId : String
  scatter : Option (List String)
  scatterMethod : Option String
  deriving DecidableEq, Repr

/-- The scatter block emitted by `translate_step`: the fields are always
attached, and the method rendering is attached exactly when more than one
field is scattered (`src/janis_core/translations/cwl.py` lines 916-919). -/
def translate_step_scatter (stepId : String) (scatter : Option ScatterDescription) :
    CwlWorkflowStep :=
  match scatter with
  | Option.none => ⟨stepId, Option.none, Option.none⟩
  | some sd =>
    ⟨stepId, some sd.fields,
      if sd.fields.length > 1 then some sd.method.cwl else Option.none⟩

/-- Claim C1, counterexample: a step scattered on the two fields
`["bam", "reference"]` without an explicit method is normalized to the
*dot* method, and the lowered step document carries the scatter block with
method `"dotproduct"` — the dot-product rendering, not a cross-product
one — refuting the claim that an explicit cross-product method is emitted
(`Workflow.step` line 518 and `translate_step` lines 916-919). -/
theorem two_field_scatter_emits_dot_counterexample :
    (translate_step_scatter "s"
        (some (stepScatterNormalize (ScatterInput.fieldList ["bam", "reference"])))).scatterMethod
      = some (ScatterMethod.dot.cwl)
    ∧ (stepScatterNormalize (ScatterInput.fieldList ["bam", "reference"])).method
      = ScatterMethod.dot
    ∧ ScatterMethod.dot.cwl ≠ ScatterMethod.flatCross.cwl
    ∧ ScatterMethod.dot.cwl ≠ ScatterMethod.nestedCross.cwl := by
  refine ⟨rfl, rfl, by decide, by decide⟩

/-- Claim C1, amended: a step scattered on two input fields whose
`ScatterDescription` was built without an explicit method (from a plain
field list) emits a scatter block whose method *is* explicitly attached —
because more than one field is scattered — but that method is the default
dot-product method, not a cross-product method
(`Workflow.step` lines 506-530 and `translate_step` lines 916-919). -/
theorem two_field_scatter_emits_explicit_dot_method
    (stepId : String) (fields : List String) (toolInputTags : List String)
    (hlen : fields.length = 2)
    (_hok : stepScatterVerify stepId
      (stepScatterNormalize (ScatterInput.fieldList fields)) toolInputTags
        = .ok ()) :
    (translate_step_scatter stepId
        (some (stepScatterNormalize (ScatterInput.fieldList fields)))).scatter
      = some fields
    ∧ (translate_step_scatter stepId
        (some (stepScatterNormalize (ScatterInput.fieldList fields)))).scatterMethod
      = some (ScatterMethod.dot.cwl) := by
  refine ⟨rfl, ?_⟩
  unfold translate_step_scatter stepScatterNormalize
  have : fields.length > 1 := by rw [hlen]; exact Nat.one_lt_two
  simp [this]

/-- Witness for the amended scatter theorem: two concrete fields, both
among the tool's input tags. -/
theorem two_field_scatter_emits_explicit_dot_method_witness :
    (translate_step_scatter "s"
        (some (stepScatterNormalize
          (ScatterInput.fieldList ["bam", "reference"])))).scatter
      = some ["bam", "reference"]
    ∧ (translate_step_scatter "s"
        (some (stepScatterNormalize
          (ScatterInput.fieldList ["bam", "reference"])))).scatterMethod
      = some (ScatterMethod.dot.cwl) :=
  two_field_scatter_emits_explicit_dot_method "s" ["bam", "reference"]
    ["bam", "reference", "outputFilename"] rfl rfl

/-! ## Resource overrides
(`build_resource_override_maps_for_workflow` and
`CwlTranslator.translate_tool_internal`, `src/janis_core/translations/cwl.py`) -/

mutual
/-- The tool behind a step, as far as the resource-override walk cares:
a command tool, a code tool, or a nested sub-workflow. -/
inductive RTool where
  | commandTool (id : String)
  | codeTool (id : String)
  | subWorkflow (wf : RWorkflow)

/-- A step node: its identifier and its tool. -/
inductive RStep where
  | mk (id : String) (tool : RTool)

/-- A workflow, reduced to its insertion-ordered step-node collection. -/
inductive RWorkflow where
  | mk (stepNodes : List RStep)
end

/-- A CWL workflow-level input parameter (`cwlgen.InputParameter`): its
identifier and its type string (`"int?"` is an optional integer,
`"float?"` an optional float). -/
structure CwlInputParameter where
  id : String
  paramType : String
  deriving DecidableEq, Repr

mutual
/-- Source `build_resource_override_maps_for_workflow`: for each step backed by a
command tool, two workflow inputs `{pre}{step}_runtime_memory : float?`
and `{pre}{step}_runtime_cpu : int?`; for each step backed by a nested
workflow, recurse with the prefix extended by the step id
(`src/janis_core/translations/cwl.py` lines 990-1020; an empty prefix is
falsy, matching `if not prefix`). -/
def build_resource_override_maps_for_workflow :
    RWorkflow → String → List CwlInputParameter
  | .mk steps, pfx =>
    build_resource_override_steps steps (if pfx = "" then "" else pfx ++ "_")

/-- The loop body of `build_resource_override_maps_for_workflow` over the
step-node list, with the already-converted prefix. -/
def build_resource_override_steps :
    List RStep → String → List CwlInputParameter
  | [], _ => []
  | .mk sid tool :: rest, pre =>
    (match tool with
     | .commandTool _ =>
        [⟨(pre ++ sid ++ "_") ++ "runtime_memory", "float?"⟩,
         ⟨(pre ++ sid ++ "_") ++ "runtime_cpu", "int?"⟩]
     | .codeTool _ => []
     | .subWorkflow w => build_resource_override_maps_for_workflow w (pre ++ sid))
    ++ build_resource_override_steps rest pre
end

mutual
/-- Specification helper: the id of every command-tool-backed step in a
workflow, at any nesting depth, preceded by its recursive prefix. -/
def commandStepFullIds : RWorkflow → String → List String
  | .mk steps, pfx =>
    commandStepFullIdsSteps steps (if pfx = "" then "" else pfx ++ "_")

/-- Helper `commandStepFullIds` over a step-node list with a converted prefix. -/
def commandStepFullIdsSteps : List RStep → String → List String
  | [], _ => []
  | .mk sid tool :: rest, pre =>
    (match tool with
     | .commandTool _ => [pre ++ sid]
     | .codeTool _ => []
     | .subWorkflow w => commandStepFullIds w (pre ++ sid))
    ++ commandStepFullIdsSteps rest pre
end

/-- The pair of runtime-override input parameters contributed for one
command-tool-backed step. -/
def runtimeOverrideParams (full : String) : List CwlInputParameter :=
  [⟨full ++ "_runtime_memory", "float?"⟩, ⟨full ++ "_runtime_cpu", "int?"⟩]

theorem build_steps_nil (pre : String) :
    build_resource_override_steps [] pre = [] := rfl

theorem build_steps_command (sid tid : String) (rest : List RStep) (pre : String) :
    build_resource_override_steps (.mk sid (.commandTool tid) :: rest) pre =
      [⟨(pre ++ sid ++ "_") ++ "runtime_memory", "float?"⟩,
       ⟨(pre ++ sid ++ "_") ++ "runtime_cpu", "int?"⟩]
      ++ build_resource_override_steps rest pre := rfl

theorem build_steps_code (sid tid : String) (rest : List RStep) (pre : String) :
    build_resource_override_steps (.mk sid (.codeTool tid) :: rest) pre =
      [] ++ build_resource_override_steps rest pre := rfl

theorem build_steps_sub (sid : String) (w : RWorkflow) (rest : List RStep)
    (pre : String) :
    build_resource_override_steps (.mk sid (.subWorkflow w) :: rest) pre =
      build_resource_override_maps_for_workflow w (pre ++ sid)
      ++ build_resource_override_steps rest pre := rfl

theorem build_wf_mk (steps : List RStep) (pfx : String) :
    build_resource_override_maps_for_workflow (.mk steps) pfx =
      build_resource_override_steps steps (if pfx = "" then "" else pfx ++ "_") := rfl

theorem cmdIds_nil (pre : String) : commandStepFullIdsSteps [] pre = [] := rfl

theorem cmdIds_command (sid tid : String) (rest : List RStep) (pre : String) :
    commandStepFullIdsSteps (.mk sid (.commandTool tid) :: rest) pre =
      [pre ++ sid] ++ commandStepFullIdsSteps rest pre := rfl

theorem cmdIds_code (sid tid : String) (rest : List RStep) (pre : String) :
    commandStepFullIdsSteps (.mk sid (.codeTool tid) :: rest) pre =
      [] ++ commandStepFullIdsSteps rest pre := rfl

theorem cmdIds_sub (sid : String) (w : RWorkflow) (rest : List RStep)
    (pre : String) :
    commandStepFullIdsSteps (.mk sid (.subWorkflow w) :: rest) pre =
      commandStepFullIds w (pre ++ sid) ++ commandStepFullIdsSteps rest pre := rfl

theorem cmdIds_wf_mk (steps : List RStep) (pfx : String) :
    commandStepFullIds (.mk steps) pfx =
      commandStepFullIdsSteps steps (if pfx = "" then "" else pfx ++ "_") := rfl

mutual
/-- The resource-override inputs of a workflow are exactly the two runtime
parameters for each command-tool-backed step (with its recursive prefix). -/
theorem build_resource_override_eq_wf :
    ∀ (wf : RWorkflow) (pfx : String),
      build_resource_override_maps_for_workflow wf pfx =
        (commandStepFullIds wf pfx).flatMap runtimeOverrideParams
  | .mk steps, pfx => by
    rw [build_wf_mk, cmdIds_wf_mk]
    exact build_resource_override_eq_steps steps _

/-- The step-list version of `build_resource_override_eq_wf`. -/
theorem build_resource_override_eq_steps :
    ∀ (steps : List RStep) (pre : String),
      build_resource_override_steps steps pre =
        (commandStepFullIdsSteps steps pre).flatMap runtimeOverrideParams
  | [], pre => by
    rw [build_steps_nil, cmdIds_nil]
    rfl
  | .mk sid (.commandTool tid) :: rest, pre => by
    rw [build_steps_command, cmdIds_command,
      List.flatMap_append [pre ++ sid] (commandStepFullIdsSteps rest pre)
        runtimeOverrideParams,
      build_resource_override_eq_steps rest pre]
    have h1 : ("_" : String) ++ "runtime_memory" = "_runtime_memory" := rfl
    have h2 : ("_" : String) ++ "runtime_cpu" = "_runtime_cpu" := rfl
    simp [runtimeOverrideParams, String.append_assoc, h1, h2]
  | .mk sid (.codeTool tid) :: rest, pre => by
    rw [build_steps_code, cmdIds_code,
      List.flatMap_append [] (commandStepFullIdsSteps rest pre)
        runtimeOverrideParams,
      build_resource_override_eq_steps rest pre]
    rfl
  | .mk sid (.subWorkflow w) :: rest, pre => by
    rw [build_steps_sub, cmdIds_sub,
      List.flatMap_append (commandStepFullIds w (pre ++ sid))
        (commandStepFullIdsSteps rest pre) runtimeOverrideParams,
      build_resource_override_eq_steps rest pre,
      build_resource_override_eq_wf w (pre ++ sid)]
end

/-- A CWL `ResourceRequirement` as emitted by `translate_tool_internal`:
the two JavaScript expression strings. -/
structure CwlResourceRequirement where
  coresMin : String
  ramMin : String
  deriving DecidableEq, Repr

/-- The resource requirement injected into a command tool's document when
resource overrides are requested
(`src/janis_core/translations/cwl.py` lines 385-390). -/
def janisResourceRequirement : CwlResourceRequirement :=
  ⟨"$(inputs.runtime_cpu ? inputs.runtime_cpu : 1)",
   "$(inputs.runtime_memory ? Math.floor(1024 * inputs.runtime_memory) : 4096)"⟩

/-- The `with_resource_overrides` fragment of
`CwlTranslator.translate_tool_internal`: the two extra optional tool
inputs and the injected resource requirement
(`src/janis_core/translations/cwl.py` lines 375-392). -/
def translate_tool_resource_extras (withResourceOverrides : Bool) :
    List CwlInputParameter × Option CwlResourceRequirement :=
  if withResourceOverrides then
    ([⟨"runtime_memory", "float?"⟩, ⟨"runtime_cpu", "int?"⟩],
     some janisResourceRequirement)
  else
    ([], Option.none)

/-- The meaning of the emitted `cores_min` JavaScript expression
`inputs.runtime_cpu ? inputs.runtime_cpu : 1`: an unset (or zero, JS
falsiness) runtime_cpu input falls back to 1. -/
def coresMinValue (runtime_cpu : Option Int) : Int :=
  match runtime_cpu with
  | Option.none => 1
  | some c => if c = 0 then 1 else c

/-- The meaning of the emitted `ram_min` JavaScript expression
`inputs.runtime_memory ? Math.floor(1024 * inputs.runtime_memory) : 4096`:
an unset (or zero) runtime_memory input falls back to 4096 (mebibytes);
a set one is scaled from gibibytes and floored. -/
def ramMinValue (runtime_memory : Option ℚ) : Int :=
  match runtime_memory with
  | Option.none => 4096
  | some m => if m = 0 then 4096 else Int.floor (1024 * m)

/-- The workflow-level inputs section assembled by
`CwlTranslator.translate_workflow`: the translated input nodes followed,
when resource overrides are enabled, by the override parameters
(`src/janis_core/translations/cwl.py` lines 111-118). -/
def translate_workflow_inputs (base : List CwlInputParameter)
    (withResourceOverrides : Bool) (wf : RWorkflow) : List CwlInputParameter :=
  base ++
    (if withResourceOverrides
     then build_resource_override_maps_for_workflow wf ""
     else [])

/-- Claim C4: lowering a workflow with resource overrides enabled adds, for
every command-tool-backed step at any nesting depth, exactly the two extra
optional workflow inputs `{recursive_prefix}{step}_runtime_cpu : int?` and
`{recursive_prefix}{step}_runtime_memory : float?`, and the tool document
of a command tool lowered with overrides gains the resource requirement
whose cpu expression falls back to 1 and whose memory expression falls
back to 4096 units when the inputs are unset
(`build_resource_override_maps_for_workflow` and
`translate_tool_internal`, `src/janis_core/translations/cwl.py`). -/
theorem resource_overrides_runtime_inputs (base : List CwlInputParameter)
    (wf : RWorkflow) (full : String)
    (hfull : full ∈ commandStepFullIds wf "") :
    (build_resource_override_maps_for_workflow wf "" =
      (commandStepFullIds wf "").flatMap runtimeOverrideParams)
    ∧ (⟨full ++ "_runtime_cpu", "int?"⟩ : CwlInputParameter)
        ∈ translate_workflow_inputs base true wf
    ∧ (⟨full ++ "_runtime_memory", "float?"⟩ : CwlInputParameter)
        ∈ translate_workflow_inputs base true wf
    ∧ (translate_tool_resource_extras true).1 =
        [⟨"runtime_memory", "float?"⟩, ⟨"runtime_cpu", "int?"⟩]
    ∧ (translate_tool_resource_extras true).2 = some janisResourceRequirement
    ∧ coresMinValue Option.none = 1
    ∧ ramMinValue Option.none = 4096 := by
  have hchar := build_resource_override_eq_wf wf ""
  have hmem : ∀ p ∈ runtimeOverrideParams full,
      p ∈ translate_workflow_inputs base true wf := by
    intro p hp
    unfold translate_workflow_inputs
    rw [if_pos rfl, hchar]
    exact List.mem_append_right _ (List.mem_flatMap.mpr ⟨full, hfull, hp⟩)
  refine ⟨hchar, ?_, ?_, rfl, rfl, rfl, rfl⟩
  · exact hmem _ (by simp [runtimeOverrideParams])
  · exact hmem _ (by simp [runtimeOverrideParams])

/-- Witness for the resource-override theorem: a workflow with a nested
sub-workflow containing a command-tool step, whose override inputs carry
the recursive prefix `outer_inner_`. -/
theorem resource_overrides_runtime_inputs_witness :
    (⟨("outer_inner" : String) ++ "_runtime_cpu", "int?"⟩ : CwlInputParameter)
      ∈ translate_workflow_inputs []
          true
          (RWorkflow.mk
            [RStep.mk "outer"
              (RTool.subWorkflow
                (RWorkflow.mk [RStep.mk "inner" (RTool.commandTool "bwa")]))]) :=
  (resource_overrides_runtime_inputs []
    (RWorkflow.mk
      [RStep.mk "outer"
        (RTool.subWorkflow
          (RWorkflow.mk [RStep.mk "inner" (RTool.commandTool "bwa")]))])
    "outer_inner" (by decide)).2.1

/-! ## Conditional composition (`Workflow.switch` and
`wrap_steps_in_workflow`, `src/janis_core/workflow/workflow.py`) -/

/-- A guard expression over the operator variants that
`rebuild_condition` dispatches on: step-output references
(`StepOperator`), input references (`InputOperator`), the `And`/`Or`/`Not`
logical operators (concrete `TwoValueOperator`/`SingleValueOperator`
subclasses), and plain Python values (returned unchanged by the rebuild).
Other operator classes recurse pointwise exactly like `andOp`/`notOp` and
are not needed by the claims. -/
inductive Operator where
  | stepRef (nodeId tag : String)
  | inputRef (inputId : String)
  | andOp (lhs rhs : Operator)
  | orOp (lhs rhs : Operator)
  | notOp (internal : Operator)
  | value (v : PyVal)
  deriving DecidableEq, Repr

/-- Source `rebuild_condition` inside `wrap_steps_in_workflow`: step-output and
input references are swapped for references to synthesized sub-workflow
inputs named `cond_{node}_{tag}` / `cond_{input}` (the memoization only
reuses the same synthetic input node, the produced reference is the same),
two-value and single-value operators recurse, and non-operator values are
returned unchanged (`src/janis_core/workflow/workflow.py` lines 901-946). -/
def rebuild_condition : Operator → Operator
  | .stepRef nodeId tag => .inputRef ("cond_" ++ nodeId ++ "_" ++ tag)
  | .inputRef inputId => .inputRef ("cond_" ++ inputId)
  | .andOp lhs rhs => .andOp (rebuild_condition lhs) (rebuild_condition rhs)
  | .orOp lhs rhs => .orOp (rebuild_condition lhs) (rebuild_condition rhs)
  | .notOp internal => .notOp (rebuild_condition internal)
  | .value v => .value v

/-- Modelled from the spec (§4.4, `or_prev_conds` lives in
`janis_core.types` which is not among the sources): the OR of all previous
guards — `None` when there are none, the guard itself for one, a
left-nested `OrOperator` chain otherwise. -/
def or_prev_conds : List Operator → Option Operator
  | [] => Option.none
  | c :: rest => some (rest.foldl Operator.orOp c)

/-- The left-nested OR chain of a non-empty guard list (the value inside
`or_prev_conds` when it is not `None`). -/
def orFold : List Operator → Operator
  | [] => Operator.value PyVal.none
  | c :: rest => rest.foldl Operator.orOp c

theorem or_prev_conds_cons (c : Operator) (rest : List Operator) :
    or_prev_conds (c :: rest) = some (orFold (c :: rest)) := rfl

/-- A branch tool, reduced to what `switch` inspects: its id and its
output schema `outputs_map()` (tag to output type, insertion-ordered). -/
structure SwitchTool where
  id : String
  outputsMap : List (String × DataType)

/-- One element of the `conditions` list passed to `switch`: a
`(guard, tool)` tuple or a bare default tool. -/
inductive SwitchBranch where
  | guarded (guard : Operator) (tool : SwitchTool)
  | defaultBranch (tool : SwitchTool)

/-- A step of the sub-workflow synthesized by `wrap_steps_in_workflow`:
its generated id `switch_case_{i+1}`, its tool and its `when` guard. -/
structure InnerStep where
  stepId : String
  toolId : String
  whenCond : Option Operator

/-- The loop of `wrap_steps_in_workflow` (lines 948-980): for the `i`-th
branch, a guarded branch gets `AndOperator(newcond, NotOperator(prevcond))`
when previous rebuilt guards exist and its own rebuilt guard otherwise,
and appends its rebuilt guard to `prevconds`; a guard-less branch gets
`NotOperator(or_prev_conds(prevconds))` (a `NotOperator` of `None` when no
guard precedes it) and leaves `prevconds` unchanged. -/
def wrap_steps_aux (i : Nat) (prevconds : List Operator) :
    List SwitchBranch → List InnerStep
  | [] => []
  | .guarded g t :: rest =>
    let newcond := rebuild_condition g
    let cond :=
      match or_prev_conds prevconds with
      | some prevcond => Operator.andOp newcond (Operator.notOp prevcond)
      | Option.none => newcond
    ⟨"switch_case_" ++ toString (i + 1), t.id, some cond⟩ ::
      wrap_steps_aux (i + 1) (prevconds ++ [newcond]) rest
  | .defaultBranch t :: rest =>
    ⟨"switch_case_" ++ toString (i + 1), t.id,
      some (Operator.notOp ((or_prev_conds prevconds).getD (Operator.value PyVal.none)))⟩ ::
      wrap_steps_aux (i + 1) prevconds rest

/-- Source `wrap_steps_in_workflow`, restricted to the step list of the
sub-workflow it synthesizes (the claims are about the `when` guards those
steps receive). -/
def wrap_steps_in_workflow (branches : List SwitchBranch) : List InnerStep :=
  wrap_steps_aux 0 [] branches

/-- The `when` guards of the steps synthesized for a branch list. -/
def switch_when_conds (branches : List SwitchBranch) : List (Option Operator) :=
  (wrap_steps_in_workflow branches).map InnerStep.whenCond

/-- The tool-extraction loop of `Workflow.switch` (lines 615-625): a tuple
contributes its tool; a bare tool anywhere but last is fatal. -/
def extract_switch_tools : List SwitchBranch → Except String (List SwitchTool)
  | [] => .ok []
  | [.defaultBranch t] => .ok [t]
  | .defaultBranch _ :: _ :: _ =>
    .error "A default statement (no condition) must be the last element in the switch"
  | .guarded _ t :: rest =>
    match extract_switch_tools rest with
    | .ok ts => .ok (t :: ts)
    | .error e => .error e

/-- The non-matching output tags of one later branch against the first
branch's schema: a tag of the first branch that the branch lacks, or whose
first-branch type cannot receive the branch's type (lines 635-639). -/
def branch_non_matching_els (compareSchema : List (String × DataType))
    (t : SwitchTool) : List String :=
  compareSchema.filterMap fun kv =>
    match t.outputsMap.lookup kv.1 with
    | Option.none => some kv.1
    | some outType =>
      if kv.2.canReceiveFrom outType then Option.none else some kv.1

/-- The extra output tags a later branch has beyond the first branch's
schema (line 634). -/
def branch_extra_params (inKeys : List String) (t : SwitchTool) : List String :=
  (t.outputsMap.map Prod.fst).filter fun k => k ∉ inKeys

/-- The per-branch entries of the schema-mismatch error: for each later
branch with non-matching tags, `"{tool}: {tags}"` listing its non-matching
and extra tags (lines 630-643). -/
def switch_non_matching_entries (t0 : SwitchTool) (rest : List SwitchTool) :
    List String :=
  rest.filterMap fun t =>
    let els := branch_non_matching_els t0.outputsMap t
    if els = [] then Option.none
    else some (t.id ++ ": " ++ String.intercalate ", "
      (els ++ branch_extra_params (t0.outputsMap.map Prod.fst) t))

/-- Source `Workflow.switch` (lines 611-653): fewer than two conditions are
rejected up front, before any branch validation; then a misplaced default
branch is fatal; then all later branches are checked against the first
branch's output schema, any mismatch being fatal with the per-branch
entries joined into one message; only then is the synthesized sub-workflow
added as a step (modelled as registering the step id after the identifier
check done by `Workflow.step`). -/
def Workflow.switch (w : Workflow) (stepid : String)
    (conditions : List SwitchBranch) : Except String Workflow :=
  if conditions.length ≤ 1 then
    .error "A switch statement must include at least 2 conditions"
  else
    match extract_switch_tools conditions with
    | .error e => .error e
    | .ok [] => .error "IndexError: list index out of range"
    | .ok (t0 :: rest) =>
      if switch_non_matching_entries t0 rest ≠ [] then
        .error ("Not all tools in the switch statement shared the output schema: "
          ++ String.intercalate " || " (switch_non_matching_entries t0 rest))
      else
        match w.verifyIdentifier stepid with
        | .error e => .error e
        | .ok _ =>
          .ok { w with
                nodeIds := w.nodeIds ++ [stepid],
                stepIds := w.stepIds ++ [stepid] }

/-- Claim C10: `switch` with fewer than two conditions raises
"A switch statement must include at least 2 conditions" up front — the
theorem holds for an arbitrary (even ill-formed) conditions list and an
arbitrary workflow, so the rejection precedes any branch validation, and
the error return means no step is registered and the workflow value is
left unchanged (`Workflow.switch`,
`src/janis_core/workflow/workflow.py` lines 611-613). -/
theorem switch_requires_two_conditions (w : Workflow) (stepid : String)
    (conditions : List SwitchBranch) (h : conditions.length < 2) :
    w.switch stepid conditions =
      .error "A switch statement must include at least 2 conditions" := by
  unfold Workflow.switch
  rw [if_pos (Nat.lt_succ_iff.mp h)]

/-- Witness for the two-conditions theorem: a single-branch switch on a
concrete workflow is rejected. -/
theorem switch_requires_two_conditions_witness :
    (⟨"wf", [], [], []⟩ : Workflow).switch "sw"
        [SwitchBranch.defaultBranch ⟨"toolA", [("out", DataType.file false)]⟩] =
      .error "A switch statement must include at least 2 conditions" :=
  switch_requires_two_conditions ⟨"wf", [], [], []⟩ "sw"
    [SwitchBranch.defaultBranch ⟨"toolA", [("out", DataType.file false)]⟩]
    (by decide)

/-- Claim C2: when some later branch's output schema differs from the first
branch's — a first-branch tag missing from it or typed so that the
first-branch type cannot receive it — `switch` fails with the
shared-output-schema error whose per-branch entries name the offending
tags of every mismatching branch, and no step is added to the workflow
(`Workflow.switch`, `src/janis_core/workflow/workflow.py` lines 627-653). -/
theorem switch_schema_mismatch_fails (w : Workflow) (stepid : String)
    (conditions : List SwitchBranch) (t0 : SwitchTool) (rest : List SwitchTool)
    (hlen : 2 ≤ conditions.length)
    (hex : extract_switch_tools conditions = .ok (t0 :: rest))
    (hm : ∃ t ∈ rest, branch_non_matching_els t0.outputsMap t ≠ []) :
    (w.switch stepid conditions =
      .error ("Not all tools in the switch statement shared the output schema: "
        ++ String.intercalate " || " (switch_non_matching_entries t0 rest)))
    ∧ (∀ t ∈ rest, branch_non_matching_els t0.outputsMap t ≠ [] →
        (t.id ++ ": " ++ String.intercalate ", "
          (branch_non_matching_els t0.outputsMap t
            ++ branch_extra_params (t0.outputsMap.map Prod.fst) t))
          ∈ switch_non_matching_entries t0 rest)
    ∧ (∀ w2, w.switch stepid conditions ≠ .ok w2) := by
  have hgt : ¬ conditions.length ≤ 1 := by omega
  have hne : switch_non_matching_entries t0 rest ≠ [] := by
    obtain ⟨t, ht, hels⟩ := hm
    unfold switch_non_matching_entries
    intro hnil
    rw [List.filterMap_eq_nil_iff] at hnil
    have h2 := hnil t ht
    simp [hels] at h2
  have hmain : w.switch stepid conditions =
      .error ("Not all tools in the switch statement shared the output schema: "
        ++ String.intercalate " || " (switch_non_matching_entries t0 rest)) := by
    unfold Workflow.switch
    rw [if_neg hgt, hex]
    dsimp only
    rw [if_pos hne]
  refine ⟨hmain, ?_, ?_⟩
  · intro t ht hels
    unfold switch_non_matching_entries
    apply List.mem_filterMap.mpr
    refine ⟨t, ht, ?_⟩
    simp [hels]
  · intro w2 hcontra
    rw [hmain] at hcontra
    exact Except.noConfusion hcontra

/-- Witness for the schema-mismatch theorem: a two-branch switch whose
second tool lacks the first tool's `out` output is rejected with the error
naming `toolB: out`, and cannot succeed. -/
theorem switch_schema_mismatch_fails_witness :
    ((⟨"wf", [], [], []⟩ : Workflow).switch "sw"
        [SwitchBranch.guarded (Operator.value (PyVal.bool true))
          ⟨"toolA", [("out", DataType.file false)]⟩,
         SwitchBranch.defaultBranch ⟨"toolB", []⟩] =
      .error ("Not all tools in the switch statement shared the output schema: "
        ++ String.intercalate " || "
          (switch_non_matching_entries ⟨"toolA", [("out", DataType.file false)]⟩
            [⟨"toolB", []⟩]))) :=
  (switch_schema_mismatch_fails ⟨"wf", [], [], []⟩ "sw"
    [SwitchBranch.guarded (Operator.value (PyVal.bool true))
      ⟨"toolA", [("out", DataType.file false)]⟩,
     SwitchBranch.defaultBranch ⟨"toolB", []⟩]
    ⟨"toolA", [("out", DataType.file false)]⟩ [⟨"toolB", []⟩]
    (by decide) rfl
    ⟨⟨"toolB", []⟩, by simp, by decide⟩).1

/-- The guard computed for one guarded branch given the rebuilt previous
guards: `AndOperator(newcond, NotOperator(prevcond))` when previous guards
exist, the rebuilt guard alone otherwise (the body of the guarded case of
the `wrap_steps_in_workflow` loop). -/
def mkGuardCond (prevconds : List Operator) (newcond : Operator) : Operator :=
  match or_prev_conds prevconds with
  | some prevcond => Operator.andOp newcond (Operator.notOp prevcond)
  | Option.none => newcond

/-- Specification helper: the inner steps produced for a run of guarded
branches, carrying the accumulated rebuilt guards. -/
def guardedSteps :
    Nat → List Operator → List Operator → List SwitchTool → List InnerStep
  | _, _, [], _ => []
  | _, _, _ :: _, [] => []
  | i, prev, g :: gs, t :: ts =>
    ⟨"switch_case_" ++ toString (i + 1), t.id,
      some (mkGuardCond prev (rebuild_condition g))⟩ ::
      guardedSteps (i + 1) (prev ++ [rebuild_condition g]) gs ts

theorem guardedSteps_length (gs : List Operator) :
    ∀ (ts : List SwitchTool) (i : Nat) (prev : List Operator),
      gs.length = ts.length → (guardedSteps i prev gs ts).length = gs.length := by
  induction gs with
  | nil => intro ts i prev _; rfl
  | cons g gs ih =>
    intro ts i prev h
    cases ts with
    | nil => simp at h
    | cons t ts =>
      have h' : gs.length = ts.length := by simpa using h
      simp [guardedSteps, ih ts (i + 1) (prev ++ [rebuild_condition g]) h']

theorem wrap_aux_guarded_spec (gs : List Operator) :
    ∀ (ts : List SwitchTool) (i : Nat) (prev : List Operator)
      (tail : List SwitchBranch), gs.length = ts.length →
      wrap_steps_aux i prev (List.zipWith SwitchBranch.guarded gs ts ++ tail) =
        guardedSteps i prev gs ts ++
          wrap_steps_aux (i + gs.length) (prev ++ gs.map rebuild_condition) tail := by
  induction gs with
  | nil =>
    intro ts i prev tail _
    simp [guardedSteps]
  | cons g gs ih =>
    intro ts i prev tail h
    cases ts with
    | nil => simp at h
    | cons t ts =>
      have h' : gs.length = ts.length := by simpa using h
      have hidx : i + (gs.length + 1) = (i + 1) + gs.length := by omega
      simp only [List.zipWith_cons_cons, List.cons_append, wrap_steps_aux,
        guardedSteps, List.length_cons, List.append_eq]
      rw [ih ts (i + 1) (prev ++ [rebuild_condition g]) tail h']
      simp [mkGuardCond, hidx, List.append_assoc]

theorem guardedSteps_whenCond_get (gs : List Operator) :
    ∀ (ts : List SwitchTool) (i : Nat) (prev : List Operator) (k : Nat)
      (g : Operator), gs.length = ts.length → gs[k]? = some g →
      ((guardedSteps i prev gs ts).map InnerStep.whenCond)[k]? =
        some (some (mkGuardCond (prev ++ (gs.take k).map rebuild_condition)
          (rebuild_condition g))) := by
  induction gs with
  | nil =>
    intro ts i prev k g _ hk
    simp at hk
  | cons g0 gs ih =>
    intro ts i prev k g h hk
    cases ts with
    | nil => simp at h
    | cons t ts =>
      have h' : gs.length = ts.length := by simpa using h
      cases k with
      | zero =>
        have hg : g0 = g := by simpa using hk
        subst hg
        simp [guardedSteps]
      | succ k =>
        have hk' : gs[k]? = some g := by simpa using hk
        simp only [guardedSteps, List.map_cons, List.getElem?_cons_succ]
        rw [ih ts (i + 1) (prev ++ [rebuild_condition g0]) k g h' hk']
        simp [List.take_succ_cons, List.append_assoc]

/-- Claim C3: in the sub-workflow synthesized by `switch`, the first guarded
branch's step receives its own (rebuilt) guard with no wrapping, the
`k`-th guarded branch (`k ≥ 1`) receives
`AND(guard_k, NOT(OR of the rebuilt guards of all previous branches))`,
and the trailing guard-less default branch receives
`NOT(OR of all preceding rebuilt guards)`
(`wrap_steps_in_workflow`, `src/janis_core/workflow/workflow.py` lines
948-962). -/
theorem switch_effective_guards (g0 : Operator) (grest : List Operator)
    (ts : List SwitchTool) (dt : SwitchTool)
    (hlen : (g0 :: grest).length = ts.length) :
    ((switch_when_conds (List.zipWith SwitchBranch.guarded (g0 :: grest) ts
        ++ [SwitchBranch.defaultBranch dt]))[0]? =
      some (some (rebuild_condition g0)))
    ∧ (∀ (k : Nat) (g : Operator), 0 < k → (g0 :: grest)[k]? = some g →
        (switch_when_conds (List.zipWith SwitchBranch.guarded (g0 :: grest) ts
            ++ [SwitchBranch.defaultBranch dt]))[k]? =
          some (some (Operator.andOp (rebuild_condition g)
            (Operator.notOp
              (orFold (((g0 :: grest).take k).map rebuild_condition))))))
    ∧ ((switch_when_conds (List.zipWith SwitchBranch.guarded (g0 :: grest) ts
          ++ [SwitchBranch.defaultBranch dt]))[(g0 :: grest).length]? =
        some (some (Operator.notOp
          (orFold ((g0 :: grest).map rebuild_condition))))) := by
  have hz := wrap_aux_guarded_spec (g0 :: grest) ts 0 []
    [SwitchBranch.defaultBranch dt] hlen
  have hconds : switch_when_conds (List.zipWith SwitchBranch.guarded
      (g0 :: grest) ts ++ [SwitchBranch.defaultBranch dt]) =
      (guardedSteps 0 [] (g0 :: grest) ts).map InnerStep.whenCond ++
        (wrap_steps_aux (0 + (g0 :: grest).length)
          ([] ++ (g0 :: grest).map rebuild_condition)
          [SwitchBranch.defaultBranch dt]).map InnerStep.whenCond := by
    unfold switch_when_conds wrap_steps_in_workflow
    rw [hz, List.map_append]
  have hglen : ((guardedSteps 0 [] (g0 :: grest) ts).map InnerStep.whenCond).length
      = (g0 :: grest).length := by
    rw [List.length_map]
    exact guardedSteps_length (g0 :: grest) ts 0 [] hlen
  refine ⟨?_, ?_, ?_⟩
  · rw [hconds,
      List.getElem?_append_left (by rw [hglen]; exact Nat.succ_pos _),
      guardedSteps_whenCond_get (g0 :: grest) ts 0 [] 0 g0 hlen (by simp)]
    rfl
  · intro k g hpos hk
    have hklt : k < (g0 :: grest).length := by
      have := List.getElem?_eq_some_iff.mp hk
      exact this.1
    rw [hconds, List.getElem?_append_left (by rw [hglen]; exact hklt),
      guardedSteps_whenCond_get (g0 :: grest) ts 0 [] k g hlen hk]
    obtain ⟨j, rfl⟩ : ∃ j, k = j + 1 := ⟨k - 1, by omega⟩
    simp only [List.take_succ_cons, List.map_cons, List.nil_append]
    rfl
  · rw [hconds, List.getElem?_append_right (by rw [hglen]), hglen,
      Nat.sub_self]
    simp only [List.nil_append, List.map_cons]
    rfl

/-- Witness for the effective-guards theorem: a two-guard switch with a
default branch; the first step keeps its rebuilt guard bare. -/
theorem switch_effective_guards_witness :
    ((switch_when_conds (List.zipWith SwitchBranch.guarded
        [Operator.stepRef "qc" "pass", Operator.inputRef "flag"]
        [⟨"toolA", []⟩, ⟨"toolB", []⟩]
        ++ [SwitchBranch.defaultBranch ⟨"toolC", []⟩]))[0]? =
      some (some (rebuild_condition (Operator.stepRef "qc" "pass")))) :=
  (switch_effective_guards (Operator.stepRef "qc" "pass")
    [Operator.inputRef "flag"] [⟨"toolA", []⟩, ⟨"toolB", []⟩] ⟨"toolC", []⟩
    rfl).1

end Janis
